import Mathlib

/-!
Shallow embedding of the PulseChain validator-payments scanner
(`src/get-validator-payments/fetch-validator-payments.js`) and proofs about it.

The embedding translates the source functions directly:
  * `retry` models the `retry(fn, retries)` wrapper (lines 101-119): the
    environment is a function from the attempt number (1-based) to that
    attempt's outcome; the trace records the final result, how many times the
    operation ran, and the sleep durations (`1000 * attempt` ms after each
    failed attempt, as on line 115).
  * `getGasUsed` models lines 127-154 (`eth_getTransactionReceipt` wrapped in
    `retry`): an HTTP error or an RPC error object throws (is a retryable
    failure); a null `data.result` yields gas `0` without error.
  * `resolveSlotRange` models lines 173-195: timestamp parsing is abstracted
    as `Option Int` (`none` = `NaN`), `Math.ceil`/`Math.floor` of the real
    division become integer ceiling/floor division (the divisor
    `slot_interval_seconds` is positive).
  * `processSlotOnce` models one attempt of the per-slot closure passed to
    `retry` on lines 248-340, acting on the shared mutable aggregation state
    (`validators[i].consensus/execution`, `consensusTotals`,
    `executionTotals`), which is threaded explicitly as `AggState`.
    JavaScript `number` amounts are embedded as `ℚ` and `BigInt` amounts as
    `ℤ`.
  * `processSlotRetried` is that closure run under `retry` (the state
    mutations of a failed attempt persist, exactly as in the source where the
    closure mutates shared objects).
  * `runScan` folds slot processing over a list of per-slot environments,
    modelling the slot loop of lines 241-353 (the concurrency ceiling only
    batches the same per-slot work).
  * a parallel model (`DF`, `roundDF`, `processSlotOnceF`, `runScanF`)
    stores every JavaScript `number` as the exact dyadic value of the
    binary64 double the source computes, with each operation rounding to
    53 significant bits (round to nearest, ties to even): it captures the
    order sensitivity of the source's floating-point accumulation, which
    the `ℚ` idealization above cannot.
-/

/-- Configuration values read from `config.json` (file header, lines 64-71).
`gwei_to_pls` defaults to `1e9`, `max_effective_balance` to `32`. -/
structure Config where
  gweiToPls : ℚ
  maxEffectiveBalance : ℚ

/-- The example `config.json` from the file header (lines 19-27). -/
def defaultConfig : Config := { gweiToPls := 1000000000, maxEffectiveBalance := 32 }

/-- One withdrawal from `body.execution_payload.withdrawals` (line 271):
`validator_index` and `amount` are decimal strings parsed with `parseInt`
(amounts are non-negative), `address` is the withdrawal address. -/
structure Withdrawal where
  validator_index : Nat
  amount : Nat
  address : String

/-- A transaction of an execution block (`b.transactions`, lines 320-330).
The three fee fields are hex strings that may be absent (`undefined`);
`BigInt(x || '0x0')` turns an absent field into `0`. -/
structure Tx where
  hash : String
  maxPriorityFeePerGas : Option Nat
  maxFeePerGas : Option Nat
  gasPrice : Option Nat

/-- The result object of `eth_getBlockByNumber` (line 316):
`baseFeePerGas || '0x0'` and the full transaction list. -/
structure ExecBlock where
  baseFeePerGas : Option Nat
  transactions : List Tx

/-- `body.execution_payload` of a beacon block (lines 271, 287-293):
`withdrawals` may be absent (`?.withdrawals || []`). -/
structure ExecPayload where
  block_number : Nat
  fee_recipient : String
  withdrawals : Option (List Withdrawal)

/-- `blockData.data.message` of a beacon block (lines 264-267). -/
structure BeaconBlockMsg where
  proposer_index : Nat
  execution_payload : Option ExecPayload

/-- Outcome of fetching `/eth/v1/beacon/blocks/{slot}` for one attempt
(lines 250-264): `notFound` is HTTP 404, `badIndex` is HTTP 400 (both
handled as terminal skips), `httpErr` is any other non-ok status (thrown,
line 262), `decodeErr` is `blockRes.json()` throwing, `block` is a decoded
body. -/
inductive SlotFetch where
  | notFound
  | badIndex
  | httpErr (status : Nat)
  | decodeErr
  | block (msg : BeaconBlockMsg)

/-- Outcome of the `eth_getBlockByNumber` call of lines 296-316.
`netFail` models the inner `retry(fetchWithTimeout ...)` exhausting (the
exception propagates to the outer catch); `httpErr` models `!rpcRes.ok`
(thrown, line 308); `decodeErr` models `rpcRes.json()` throwing;
`rpcError`/`noResult` model `block.error` / `!block.result` (logged and
swallowed with a normal `return`, lines 311-314); `ok` is a decoded block. -/
inductive RpcBlockFetch where
  | netFail
  | httpErr (status : Nat)
  | decodeErr
  | rpcError (msg : String)
  | noResult
  | ok (b : ExecBlock)

/-- One response of `eth_getTransactionReceipt` inside `getGasUsed`
(lines 127-154): a non-ok HTTP status or an RPC error object throws;
`result none` is a null `data.result` (yields `0n`); `result (some g)` is a
receipt with `gasUsed = g`. -/
inductive ReceiptResp where
  | httpErr (status : Nat)
  | rpcErr (msg : String)
  | decodeErr
  | result (r : Option Nat)

/-- Errors thrown inside one slot-processing attempt. -/
inductive SlotErr where
  | http (status : Nat)
  | decode
  | rpcNet
  | rpcHttp (status : Nat)
  | rpcDecode

/-- Error thrown by one `getGasUsed` attempt. -/
inductive GasErr where
  | http (status : Nat)
  | rpc (msg : String)
  | decode

/-- The fixed per-slot environment: the beacon-block response, the
execution-block response, and, per transaction hash and per attempt number,
the receipt responses seen by `getGasUsed`. -/
structure SlotEnv where
  blockResp : SlotFetch
  rpcResp : RpcBlockFetch
  gasResps : String → Nat → ReceiptResp

/-- The shared mutable aggregation state: per-validator consensus and
execution totals (`validators[i].consensus/execution`, line 216) and the
address-keyed totals (`consensusTotals`/`executionTotals`, lines 228-229),
modelled as total maps with default `0`. -/
structure AggState where
  consV : Nat → ℚ
  execV : Nat → ℚ
  consA : String → ℚ
  execA : String → ℚ

/-- The all-zero aggregation state (fresh `{}` objects and `0` totals). -/
def AggState.zero : AggState :=
  { consV := fun _ => 0, execV := fun _ => 0, consA := fun _ => 0, execA := fun _ => 0 }

/-- Pointwise sum of two aggregation states (used to state that slot
processing adds a fixed delta). -/
def AggState.add (s d : AggState) : AggState :=
  { consV := fun i => s.consV i + d.consV i
    execV := fun i => s.execV i + d.execV i
    consA := fun a => s.consA a + d.consA a
    execA := fun a => s.execA a + d.execA a }

/-- `f[k] := f[k] + v` on a `Nat`-keyed total map
(`validators[i].x += v`). -/
def bumpN (f : Nat → ℚ) (k : Nat) (v : ℚ) : Nat → ℚ :=
  fun i => if i = k then f i + v else f i

/-- `m[k] = (m[k] || 0) + v` on a `String`-keyed total map. -/
def bumpS (f : String → ℚ) (k : String) (v : ℚ) : String → ℚ :=
  fun a => if a = k then f a + v else f a

/-- JavaScript `String.prototype.toLowerCase()` on the ASCII hex addresses
the scanner handles: lower-case every character. -/
def toLowerJS (s : String) : String := ⟨s.data.map Char.toLower⟩

/-! ## Slot-range resolution (lines 173-195) -/

/-- `Math.ceil(a / b)` for integers with `b > 0`: since Lean's `Int`
division is floor division for a positive divisor, the ceiling is
`-((-a) / b)`. -/
def ceilDivInt (a b : Int) : Int := -((-a) / b)

/-- Lines 173-195 of `getValidatorPayments`: parse the two timestamps
(`none` models `NaN`), compute
`startSlot = max(0, ceil((startTs - genesis) / I))` and
`endSlot = floor((endTs - genesis) / I)`, and fail when parsing failed or
`startSlot > endSlot`.  `I` is `slot_interval_seconds` as a positive
natural number. -/
def resolveSlotRange (I : Nat) (genesis : Int) (startTs endTs : Option Int) :
    Except String (Int × Int) :=
  match startTs, endTs with
  | some st, some et =>
    let startSlot := max 0 (ceilDivInt (st - genesis) I)
    let endSlot := (et - genesis) / (I : Int)
    if startSlot > endSlot then Except.error "Start slot is greater than end slot."
    else Except.ok (startSlot, endSlot)
  | _, _ => Except.error "Invalid date format provided."

/-! ## The retry wrapper (lines 101-119) -/

/-- The final failure of `retry` (line 118): after `retries + 1` attempts it
throws carrying the last error (`none` only if the operation never ran). -/
inductive RetryFailure (E : Type) where
  | exhausted (lastError : Option E)

/-- What one run of `retry` did: its result, how many times the wrapped
operation executed, and the list of backoff sleeps (in ms, in order). -/
structure RetryTrace (E A : Type) where
  result : Except (RetryFailure E) A
  executions : Nat
  sleeps : List Nat

/-- The loop of `retry` (lines 104-117): `attempt` is the 1-based attempt
counter, `remaining` the number of attempts still allowed; each failed
attempt sleeps `1000 * attempt` ms (line 115) and continues. -/
def retryGo {E A : Type} (fn : Nat → Except E A) (attempt remaining : Nat)
    (lastError : Option E) : RetryTrace E A :=
  match remaining with
  | 0 => { result := Except.error (RetryFailure.exhausted lastError), executions := 0, sleeps := [] }
  | r + 1 =>
    match fn attempt with
    | Except.ok v => { result := Except.ok v, executions := 1, sleeps := [] }
    | Except.error e =>
      let rest := retryGo fn (attempt + 1) r (some e)
      { result := rest.result, executions := 1 + rest.executions,
        sleeps := 1000 * attempt :: rest.sleeps }

/-- `retry(fn, retries)` (line 101, default `retries = 4`): run up to
`retries + 1` attempts starting at attempt 1. -/
def retry {E A : Type} (fn : Nat → Except E A) (retries : Nat) : RetryTrace E A :=
  retryGo fn 1 (retries + 1) none

/-- `getGasUsed` body for one attempt (lines 128-152): HTTP errors and RPC
error objects throw; a null `data.result` returns `0n`; otherwise the
receipt's `gasUsed`. -/
def getGasUsedOnce (resp : ReceiptResp) : Except GasErr Nat :=
  match resp with
  | ReceiptResp.httpErr s => Except.error (GasErr.http s)
  | ReceiptResp.rpcErr m => Except.error (GasErr.rpc m)
  | ReceiptResp.decodeErr => Except.error GasErr.decode
  | ReceiptResp.result none => Except.ok 0
  | ReceiptResp.result (some g) => Except.ok g

/-- `getGasUsed(rpcUrl, txHash)` (lines 127-154): the per-attempt body run
under `retry` with 4 retries; `resps k` is the response seen by attempt
`k`. -/
def getGasUsed (resps : Nat → ReceiptResp) : RetryTrace GasErr Nat :=
  retry (fun k => getGasUsedOnce (resps k)) 4

/-! ## Per-slot processing (lines 248-340) -/

/-- Lines 322-324: `maxPriority = BigInt(tx.maxPriorityFeePerGas || '0x0')`,
`maxFee = BigInt(tx.maxFeePerGas || tx.gasPrice || '0x0')`,
`tip = maxPriority < maxFee - baseFee ? maxPriority : maxFee - baseFee`
(`BigInt` arithmetic, embedded in `ℤ`; the result may be negative). -/
def effectiveTip (baseFee : Int) (tx : Tx) : Int :=
  let maxPriority : Int := (tx.maxPriorityFeePerGas.getD 0 : Nat)
  let maxFee : Int := (tx.maxFeePerGas.getD (tx.gasPrice.getD 0) : Nat)
  if maxPriority < maxFee - baseFee then maxPriority else maxFee - baseFee

/-- One iteration of the transaction loop (lines 320-330): on a successful
`getGasUsed` the transaction adds `tip * gasUsed` to `prioritySum`; if
anything in the `try` throws (in particular `getGasUsed` exhausting its
retries), the `catch` logs and the transaction contributes nothing. -/
def txDelta (gasResult : Except (RetryFailure GasErr) Nat) (baseFee : Int) (tx : Tx) : Int :=
  match gasResult with
  | Except.ok g => effectiveTip baseFee tx * (g : Int)
  | Except.error _ => 0

/-- The whole transaction loop (lines 319-330): fold `prioritySum += ...`
over the block's transactions, with each transaction's gas lookup run
through its own `getGasUsed` retries against `gasResps`. -/
def prioritySum (gasResps : String → Nat → ReceiptResp) (baseFee : Int)
    (txs : List Tx) : Int :=
  txs.foldl (fun acc tx => acc + txDelta (getGasUsed (gasResps tx.hash)).result baseFee tx) 0

/-- Lines 274-277: convert the withdrawal amount from gwei to whole coins
(`parseInt(wd.amount) / GWEI_TO_PLS`) and, if the result strictly exceeds
`MAX_EFFECTIVE_BALANCE`, subtract that maximum (full-exit principal
stripping). -/
def creditedAmount (cfg : Config) (amountGwei : Nat) : ℚ :=
  let amount : ℚ := (amountGwei : ℚ) / cfg.gweiToPls
  if amount > cfg.maxEffectiveBalance then amount - cfg.maxEffectiveBalance else amount

/-- Lines 271-282, one withdrawal: if its validator index is tracked
(`indicesSet.has`), add the credited amount to the validator's consensus
total and to the lower-cased withdrawal address's entry of
`consensusTotals`; otherwise no change. -/
def creditWithdrawal (cfg : Config) (tracked : Nat → Bool) (s : AggState)
    (wd : Withdrawal) : AggState :=
  if tracked wd.validator_index then
    { s with consV := bumpN s.consV wd.validator_index (creditedAmount cfg wd.amount)
             consA := bumpS s.consA (toLowerJS wd.address) (creditedAmount cfg wd.amount) }
  else s

/-- The withdrawal list actually iterated on line 271:
`body.execution_payload?.withdrawals || []`. -/
def withdrawalsOf (msg : BeaconBlockMsg) : List Withdrawal :=
  match msg.execution_payload with
  | none => []
  | some p => p.withdrawals.getD []

/-- One attempt of the per-slot closure of lines 248-340, acting on the
shared aggregation state.  A 404 or 400 beacon response returns normally
with no contribution (lines 251-261); other HTTP errors and decode failures
throw (line 262, and the rethrow on line 338).  Withdrawals are credited
first (lines 271-282).  If the proposer is tracked: a missing execution
payload returns normally (lines 288-291); the `eth_getBlockByNumber` result
is inspected — a thrown inner-retry exhaustion, a non-ok HTTP status or a
decode failure throw, while an RPC error object or a missing `result` is
logged and returns normally (lines 307-314); otherwise the transaction
loop's total tip revenue, divided by `1e18`, is added to the proposer's
execution total and to the lower-cased fee recipient's entry of
`executionTotals` (lines 316-334). -/
def processSlotOnce (cfg : Config) (tracked : Nat → Bool) (env : SlotEnv)
    (s : AggState) : AggState × Except SlotErr Unit :=
  match env.blockResp with
  | SlotFetch.notFound => (s, Except.ok ())
  | SlotFetch.badIndex => (s, Except.ok ())
  | SlotFetch.httpErr code => (s, Except.error (SlotErr.http code))
  | SlotFetch.decodeErr => (s, Except.error SlotErr.decode)
  | SlotFetch.block msg =>
    let s1 := (withdrawalsOf msg).foldl (creditWithdrawal cfg tracked) s
    if tracked msg.proposer_index then
      match msg.execution_payload with
      | none => (s1, Except.ok ())
      | some payload =>
        match env.rpcResp with
        | RpcBlockFetch.netFail => (s1, Except.error SlotErr.rpcNet)
        | RpcBlockFetch.httpErr code => (s1, Except.error (SlotErr.rpcHttp code))
        | RpcBlockFetch.decodeErr => (s1, Except.error SlotErr.rpcDecode)
        | RpcBlockFetch.rpcError _ => (s1, Except.ok ())
        | RpcBlockFetch.noResult => (s1, Except.ok ())
        | RpcBlockFetch.ok b =>
          let baseFee : Int := (b.baseFeePerGas.getD 0 : Nat)
          let executionAmount : ℚ :=
            (prioritySum env.gasResps baseFee b.transactions : ℚ) / (1000000000000000000 : ℚ)
          ({ s1 with execV := bumpN s1.execV msg.proposer_index executionAmount
                     execA := bumpS s1.execA (toLowerJS payload.fee_recipient) executionAmount },
           Except.ok ())
    else (s1, Except.ok ())

/-- The source `retry` applied to a closure that mutates shared state
(lines 248-340): each attempt runs on the state left behind by the previous
attempt — nothing is rolled back.  Returns the final state and whether some
attempt succeeded. -/
def retryStateful (fn : AggState → AggState × Except SlotErr Unit) :
    Nat → AggState → AggState × Bool
  | 0, s => (s, false)
  | n + 1, s =>
    match fn s with
    | (s1, Except.ok _) => (s1, true)
    | (s1, Except.error _) => retryStateful fn n s1

/-- One slot's processing unit under `retry(fn, 4, ...)` (line 340): up to
5 attempts of `processSlotOnce` on the shared state. -/
def processSlotRetried (cfg : Config) (tracked : Nat → Bool) (env : SlotEnv)
    (s : AggState) : AggState × Bool :=
  retryStateful (processSlotOnce cfg tracked env) 5 s

/-- The slot scan (lines 241-353): every slot's retried unit runs against
the shared state; `Promise.allSettled` keeps going whether a unit succeeded
or exhausted its retries, so the final state is the fold of the retried
units over the slot list. -/
def runScan (cfg : Config) (tracked : Nat → Bool) (envs : List SlotEnv)
    (s : AggState) : AggState :=
  envs.foldl (fun st e => (processSlotRetried cfg tracked e st).1) s

/-! ## Concrete fixtures used by witnesses and counterexamples -/

/-- A tracked-index set holding exactly validator index 5. -/
def trackedFive : Nat → Bool := fun i => i == 5

/-- A withdrawal of `33e9` gwei (33 whole coins) to `0xaaa` for validator 5. -/
def wdThirtyThree : Withdrawal :=
  { validator_index := 5, amount := 33000000000, address := "0xaaa" }

/-- A withdrawal of exactly `32e9` gwei (32 whole coins, the default
maximum effective balance) to `0xaaa` for validator 5. -/
def wdThirtyTwo : Withdrawal :=
  { validator_index := 5, amount := 32000000000, address := "0xaaa" }

/-- Receipt responses that always answer with a null `result`. -/
def gasAlwaysNull : String → Nat → ReceiptResp := fun _ _ => ReceiptResp.result none

/-- Receipt responses that answer HTTP 500 on every attempt. -/
def gasAlwaysHttp500 : String → Nat → ReceiptResp := fun _ _ => ReceiptResp.httpErr 500

/-- A beacon block proposed by validator 5 whose execution payload carries
the 33-coin withdrawal and fee recipient `0xbob`. -/
def msgWithWithdrawal : BeaconBlockMsg :=
  { proposer_index := 5
    execution_payload :=
      some { block_number := 7, fee_recipient := "0xbob", withdrawals := some [wdThirtyThree] } }

/-- Slot environment where the withdrawal is credited and then the
execution-block fetch fails with HTTP 500 on every attempt. -/
def envPartialFail : SlotEnv :=
  { blockResp := SlotFetch.block msgWithWithdrawal
    rpcResp := RpcBlockFetch.httpErr 500
    gasResps := gasAlwaysNull }

/-- Slot environment whose beacon-block fetch answers 404 (no block). -/
def envSkip404 : SlotEnv :=
  { blockResp := SlotFetch.notFound
    rpcResp := RpcBlockFetch.noResult
    gasResps := gasAlwaysNull }

/-- A transaction whose fee cap (1) is below the base fee (3): the code's
tip `min(5, 1 - 3) = -2` is negative. -/
def txUnderpriced : Tx :=
  { hash := "t1", maxPriorityFeePerGas := some 5, maxFeePerGas := some 1, gasPrice := none }

/-- A beacon block proposed by validator 5 with no withdrawals and fee
recipient `0xbob`. -/
def msgProposerOnly : BeaconBlockMsg :=
  { proposer_index := 5
    execution_payload :=
      some { block_number := 7, fee_recipient := "0xbob", withdrawals := none } }

/-- Slot environment where the tracked proposer's execution block holds a
single underpriced transaction with gas used 1000. -/
def envNegTip : SlotEnv :=
  { blockResp := SlotFetch.block msgProposerOnly
    rpcResp := RpcBlockFetch.ok { baseFeePerGas := some 3, transactions := [txUnderpriced] }
    gasResps := fun _ _ => ReceiptResp.result (some 1000) }

/-- Slot environment where the execution-block RPC answers with an error
object. -/
def envRpcErrObj : SlotEnv :=
  { blockResp := SlotFetch.block msgProposerOnly
    rpcResp := RpcBlockFetch.rpcError "boom"
    gasResps := gasAlwaysNull }

/-- Slot environment where every receipt lookup of the proposer's block
fails with HTTP 500 (so `getGasUsed` exhausts its retries). -/
def envGasExhaust : SlotEnv :=
  { blockResp := SlotFetch.block msgProposerOnly
    rpcResp := RpcBlockFetch.ok { baseFeePerGas := some 3, transactions := [txUnderpriced] }
    gasResps := gasAlwaysHttp500 }

/-! ## Helper lemmas -/

/-- Floor division on `ℤ` by a natural divisor agrees with the rational
floor, i.e. the code's `Math.floor((ts - genesis) / I)`. -/
lemma intDiv_eq_ratFloor (a : Int) (I : Nat) :
    a / (I : Int) = ⌊(a : ℚ) / (I : ℚ)⌋ :=
  (Rat.floor_intCast_div_natCast a I).symm

/-- `ceilDivInt` agrees with the rational ceiling, i.e. the code's
`Math.ceil((ts - genesis) / I)`. -/
lemma ceilDivInt_eq_ratCeil (a : Int) (I : Nat) :
    ceilDivInt a (I : Int) = ⌈(a : ℚ) / (I : ℚ)⌉ := by
  unfold ceilDivInt
  rw [intDiv_eq_ratFloor (-a) I]
  push_cast
  rw [neg_div, Int.floor_neg, neg_neg]

/-- The retry loop never runs the operation more often than the remaining
attempt budget. -/
lemma retryGo_executions_le {E A : Type} (fn : Nat → Except E A) :
    ∀ (remaining attempt : Nat) (lastError : Option E),
      (retryGo fn attempt remaining lastError).executions ≤ remaining := by
  intro remaining
  induction remaining with
  | zero => intro attempt lastError; simp [retryGo]
  | succ r ih =>
    intro attempt lastError
    simp only [retryGo]
    cases fn attempt with
    | ok v => simp
    | error e =>
      have h := ih (attempt + 1) (some e)
      simp only []
      omega

/-- The sleeps recorded by the retry loop follow the linear pattern
`1000 * attemptNumber`: starting at `attempt`, the i-th recorded sleep
(0-based) is `1000 * (attempt + i)`. -/
lemma retryGo_sleeps_pattern {E A : Type} (fn : Nat → Except E A) :
    ∀ (remaining attempt : Nat) (lastError : Option E) (i : Nat),
      i < (retryGo fn attempt remaining lastError).sleeps.length →
      (retryGo fn attempt remaining lastError).sleeps.getD i 0 = 1000 * (attempt + i) := by
  intro remaining
  induction remaining with
  | zero => intro attempt lastError i hi; simp [retryGo] at hi
  | succ r ih =>
    intro attempt lastError i hi
    cases h : fn attempt with
    | ok v => simp [retryGo, h] at hi
    | error e =>
      simp only [retryGo, h] at hi ⊢
      cases i with
      | zero => simp
      | succ j =>
        simp only [List.getD_cons_succ]
        have hj : j < (retryGo fn (attempt + 1) r (some e)).sleeps.length := by
          simp at hi; omega
        rw [ih (attempt + 1) (some e) j hj]
        ring

/-- Claim C5: under the default policy (`retries = 4`) the wrapped
operation runs at most 5 times (1 initial attempt + 4 retries); the sleep
after the k-th failed attempt is `backoffBase * k` with
`backoffBase = 1000` ms = 1 s (linear in the attempt number, not
exponential); and when every attempt fails, the wrapper fails with a
retry-exhausted error carrying the last underlying error (the one from
attempt 5). -/
theorem C5_retry_policy {E A : Type} :
    (∀ fn : Nat → Except E A,
        (retry fn 4).executions ≤ 5
        ∧ (∀ i, i < (retry fn 4).sleeps.length →
            (retry fn 4).sleeps.getD i 0 = 1000 * (1 + i)))
    ∧ (∀ (fn : Nat → Except E A) (es : Nat → E), (∀ k, fn k = Except.error (es k)) →
        (retry fn 4).executions = 5
        ∧ (retry fn 4).sleeps = [1000 * 1, 1000 * 2, 1000 * 3, 1000 * 4, 1000 * 5]
        ∧ (retry fn 4).result = Except.error (RetryFailure.exhausted (some (es 5)))) := by
  constructor
  · intro fn
    exact ⟨retryGo_executions_le fn 5 1 none, retryGo_sleeps_pattern fn 5 1 none⟩
  · intro fn es h
    refine ⟨?_, ?_, ?_⟩ <;> simp [retry, retryGo, h]

/-- Witness for C5: with an operation failing on every attempt, the trace
shows 5 executions, the linear sleeps, and the exhaustion error carrying
the last error. -/
theorem C5_retry_policy_witness :
    (retry (fun k => (Except.error k : Except Nat Unit)) 4).executions = 5
    ∧ (retry (fun k => (Except.error k : Except Nat Unit)) 4).sleeps
        = [1000 * 1, 1000 * 2, 1000 * 3, 1000 * 4, 1000 * 5]
    ∧ (retry (fun k => (Except.error k : Except Nat Unit)) 4).result
        = Except.error (RetryFailure.exhausted (some 5)) :=
  C5_retry_policy.2 (fun k => Except.error k) (fun k => k) (fun _ => rfl)

/-- Claim C4: for parseable start and end timestamps, slot-range
resolution returns `startSlot = max(0, ceil((startTs - G) / I))` and
`endSlot = floor((endTs - G) / I)`, `startSlot` is never negative, and it
fails exactly when a timestamp failed to parse or `startSlot > endSlot`. -/
theorem C4_slot_range_resolution (I : Nat) (G st et : Int) :
    (∀ r, resolveSlotRange I G (some st) (some et) = Except.ok r →
        r.1 = max 0 ⌈((st : ℚ) - (G : ℚ)) / (I : ℚ)⌉
        ∧ r.2 = ⌊((et : ℚ) - (G : ℚ)) / (I : ℚ)⌋
        ∧ 0 ≤ r.1)
    ∧ ((∃ e, resolveSlotRange I G (some st) (some et) = Except.error e)
        ↔ ⌊((et : ℚ) - (G : ℚ)) / (I : ℚ)⌋ < max 0 ⌈((st : ℚ) - (G : ℚ)) / (I : ℚ)⌉)
    ∧ (∀ oet, resolveSlotRange I G none oet = Except.error "Invalid date format provided.")
    ∧ (∀ ost, resolveSlotRange I G ost none = Except.error "Invalid date format provided.") := by
  have hS : max 0 (ceilDivInt (st - G) (I : Int)) = max 0 ⌈((st : ℚ) - (G : ℚ)) / (I : ℚ)⌉ := by
    rw [ceilDivInt_eq_ratCeil]; push_cast; ring_nf
  have hE : (et - G) / (I : Int) = ⌊((et : ℚ) - (G : ℚ)) / (I : ℚ)⌋ := by
    rw [intDiv_eq_ratFloor]; push_cast; ring_nf
  refine ⟨?_, ?_, ?_, ?_⟩
  · intro r hr
    simp only [resolveSlotRange] at hr
    split at hr
    · exact absurd hr (by simp)
    · rename_i hle
      cases hr
      rw [← hS, ← hE]
      exact ⟨rfl, rfl, le_max_left 0 _⟩
  · simp only [resolveSlotRange]
    split
    · rename_i hgt
      simp only [← hS, ← hE] at hgt ⊢
      exact ⟨fun _ => hgt, fun _ => ⟨_, rfl⟩⟩
    · rename_i hle
      simp only [← hS, ← hE] at hle ⊢
      constructor
      · rintro ⟨e, he⟩; exact absurd he (by simp)
      · intro h; exact absurd h hle
  · intro oet; rfl
  · intro ost; cases ost <;> rfl

/-- Witness for C4: at genesis 0, interval 12 s, start 0 and end 24 s,
resolution succeeds with the ceiling/floor values and a non-negative
start slot. -/
theorem C4_slot_range_resolution_witness :
    ((0 : Int), (2 : Int)).1 = max 0 ⌈((0 : ℚ) - (0 : ℚ)) / (12 : ℚ)⌉
    ∧ ((0 : Int), (2 : Int)).2 = ⌊((24 : ℚ) - (0 : ℚ)) / (12 : ℚ)⌋
    ∧ (0 : Int) ≤ ((0 : Int), (2 : Int)).1 :=
  (C4_slot_range_resolution 12 0 0 24).1 (0, 2) rfl

/-- Claim C3 (code bug): with genesis time 0 and a 12-second slot
interval, a start timestamp at the epoch and an end timestamp at
epoch + 24 s resolve to the slot range [0, 2], not [0, 1]: slot 2 starts
exactly at the end instant and is included in the scanned range, contrary
to the claim and to the source's own header comment ("calculates slots up
to but not including the start of the end date"). -/
theorem C3_end_boundary_included :
    resolveSlotRange 12 0 (some 0) (some 24) = Except.ok (0, 2)
    ∧ resolveSlotRange 12 0 (some 0) (some 24) ≠ Except.ok (0, 1) := by
  refine ⟨rfl, ?_⟩
  intro h
  rw [show resolveSlotRange 12 0 (some 0) (some 24) = Except.ok (0, 2) from rfl] at h
  simp at h

/-- Claim C2 counterexample: a withdrawal of exactly
`maxEffectiveBalance` (32 coins, `32e9` gwei) is credited in full — the
address total becomes 32, not 0, because line 275 tests the strict
`amount > MAX_EFFECTIVE_BALANCE`, so the claimed 0-credit at equality is
false. -/
theorem C2_counterexample :
    (creditWithdrawal defaultConfig trackedFive AggState.zero wdThirtyTwo).consA "0xaaa" = 32
    ∧ ((32 : ℚ) ≠ 0) := by
  constructor
  · simp +decide [creditWithdrawal, creditedAmount, bumpS, AggState.zero, defaultConfig,
      trackedFive, wdThirtyTwo, toLowerJS]
    norm_num
  · norm_num

/-- Claim C2 as amended: in the withdrawal-crediting step, a tracked
withdrawal credits `amount - maxEffectiveBalance` when the converted
amount strictly exceeds `maxEffectiveBalance`, and credits the full amount
when it is less than **or equal to** `maxEffectiveBalance` (in particular
an amount of exactly `maxEffectiveBalance` is credited in full, not as 0);
the credit goes to both the validator's record total and the lower-cased
address entry. -/
theorem C2_full_exit_stripping (cfg : Config) (tracked : Nat → Bool) (s : AggState)
    (wd : Withdrawal) (htr : tracked wd.validator_index = true) :
    (creditWithdrawal cfg tracked s wd).consA (toLowerJS wd.address)
        = s.consA (toLowerJS wd.address) + creditedAmount cfg wd.amount
    ∧ (creditWithdrawal cfg tracked s wd).consV wd.validator_index
        = s.consV wd.validator_index + creditedAmount cfg wd.amount
    ∧ ((wd.amount : ℚ) / cfg.gweiToPls ≤ cfg.maxEffectiveBalance →
        creditedAmount cfg wd.amount = (wd.amount : ℚ) / cfg.gweiToPls)
    ∧ (cfg.maxEffectiveBalance < (wd.amount : ℚ) / cfg.gweiToPls →
        creditedAmount cfg wd.amount
          = (wd.amount : ℚ) / cfg.gweiToPls - cfg.maxEffectiveBalance) := by
  refine ⟨?_, ?_, ?_, ?_⟩
  · simp [creditWithdrawal, htr, bumpS]
  · simp [creditWithdrawal, htr, bumpN]
  · intro h
    simp only [creditedAmount]
    rw [if_neg (not_lt.2 h)]
  · intro h
    simp only [creditedAmount]
    rw [if_pos h]

/-- Witness for C2 (amended): the 33-coin withdrawal of tracked validator
5, at the default configuration, credits `33 - 32 = 1` to both views. -/
theorem C2_full_exit_stripping_witness :
    (creditWithdrawal defaultConfig trackedFive AggState.zero wdThirtyThree).consA
        (toLowerJS wdThirtyThree.address)
      = AggState.zero.consA (toLowerJS wdThirtyThree.address)
        + creditedAmount defaultConfig wdThirtyThree.amount
    ∧ (creditWithdrawal defaultConfig trackedFive AggState.zero wdThirtyThree).consV
        wdThirtyThree.validator_index
      = AggState.zero.consV wdThirtyThree.validator_index
        + creditedAmount defaultConfig wdThirtyThree.amount :=
  ⟨(C2_full_exit_stripping defaultConfig trackedFive AggState.zero wdThirtyThree rfl).1,
   (C2_full_exit_stripping defaultConfig trackedFive AggState.zero wdThirtyThree rfl).2.1⟩

/-- Claim C6: a 404 (slot not found) or 400 (bad index) beacon response
completes the slot as a terminal skip — the attempt returns successfully
with the state untouched, the retried unit succeeds on its first attempt
(so no retry budget is consumed and no error is raised) — and a null
transaction receipt makes `getGasUsed` return 0 on its first attempt with
no sleeps, so the transaction contributes `tip * 0 = 0` to the totals. -/
theorem C6_terminal_skips :
    (∀ (cfg : Config) (tracked : Nat → Bool) (env : SlotEnv) (s : AggState),
        env.blockResp = SlotFetch.notFound ∨ env.blockResp = SlotFetch.badIndex →
        processSlotOnce cfg tracked env s = (s, Except.ok ())
        ∧ processSlotRetried cfg tracked env s = (s, true))
    ∧ (∀ resps : Nat → ReceiptResp, resps 1 = ReceiptResp.result none →
        getGasUsed resps = { result := Except.ok 0, executions := 1, sleeps := [] })
    ∧ (∀ (baseFee : Int) (tx : Tx), txDelta (Except.ok 0) baseFee tx = 0) := by
  refine ⟨?_, ?_, ?_⟩
  · intro cfg tracked env s h
    have honce : processSlotOnce cfg tracked env s = (s, Except.ok ()) := by
      rcases h with h | h <;> simp [processSlotOnce, h]
    refine ⟨honce, ?_⟩
    simp [processSlotRetried, retryStateful, honce]
  · intro resps h
    simp [getGasUsed, retry, retryGo, h, getGasUsedOnce]
  · intro baseFee tx
    simp [txDelta]

/-- Witness for C6: a concrete 404 environment is skipped with no state
change and a first-attempt success, and an always-null receipt makes
`getGasUsed` return 0 at once. -/
theorem C6_terminal_skips_witness :
    (processSlotOnce defaultConfig trackedFive envSkip404 AggState.zero
        = (AggState.zero, Except.ok ())
      ∧ processSlotRetried defaultConfig trackedFive envSkip404 AggState.zero
        = (AggState.zero, true))
    ∧ getGasUsed (gasAlwaysNull "t1")
        = { result := Except.ok 0, executions := 1, sleeps := [] }
    ∧ txDelta (Except.ok 0) 3 txUnderpriced = 0 :=
  ⟨C6_terminal_skips.1 defaultConfig trackedFive envSkip404 AggState.zero (Or.inl rfl),
   C6_terminal_skips.2.1 (gasAlwaysNull "t1") rfl,
   C6_terminal_skips.2.2 3 txUnderpriced⟩

/-- `cond ? a : b` with `cond = a < b` is the minimum (line 324). -/
lemma ifLtEqMin (a b : Int) : (if a < b then a else b) = min a b := by
  rcases le_or_lt b a with h | h
  · rw [if_neg (not_lt.2 h), min_eq_right h]
  · rw [if_pos h, min_eq_left h.le]

/-- Claim C7: with both fee-cap fields present the effective per-unit tip
is `min(maxPriorityFeePerGas, maxFeePerGas - baseFeePerGas)`; with the
fee-cap fields absent it is computed from the single legacy `gasPrice`
field (the code substitutes `gasPrice` for the missing fee cap and `0` for
the missing priority cap, giving `min(0, gasPrice - baseFee)`); and a
transaction's contribution to the block's priority-fee revenue is
`tip * gasUsed`. -/
theorem C7_tip_and_contribution (baseFee : Int) (tx : Tx) :
    (∀ mp mf, tx.maxPriorityFeePerGas = some mp → tx.maxFeePerGas = some mf →
        effectiveTip baseFee tx = min (mp : Int) ((mf : Int) - baseFee))
    ∧ (tx.maxPriorityFeePerGas = none → tx.maxFeePerGas = none →
        ∀ gp, tx.gasPrice = some gp →
          effectiveTip baseFee tx = min (0 : Int) ((gp : Int) - baseFee))
    ∧ (∀ g : Nat, txDelta (Except.ok g) baseFee tx = effectiveTip baseFee tx * (g : Int)) := by
  refine ⟨?_, ?_, ?_⟩
  · intro mp mf hmp hmf
    simp only [effectiveTip, hmp, hmf, Option.getD_some]
    exact ifLtEqMin _ _
  · intro hmp hmf gp hgp
    simp only [effectiveTip, hmp, hmf, hgp, Option.getD_none, Option.getD_some,
      Nat.cast_zero]
    exact ifLtEqMin _ _
  · intro g
    simp [txDelta]

/-- Witness for C7: for a transaction with priority cap 2 and fee cap 10
over base fee 3, the tip is `min(2, 7) = 2` and the contribution with gas
1000 is 2000. -/
theorem C7_tip_and_contribution_witness :
    effectiveTip 3 { hash := "t0", maxPriorityFeePerGas := some 2,
                     maxFeePerGas := some 10, gasPrice := none }
      = min (2 : Int) ((10 : Int) - 3)
    ∧ txDelta (Except.ok 1000) 3
        { hash := "t0", maxPriorityFeePerGas := some 2,
          maxFeePerGas := some 10, gasPrice := none }
      = effectiveTip 3 { hash := "t0", maxPriorityFeePerGas := some 2,
                         maxFeePerGas := some 10, gasPrice := none } * (1000 : Int) :=
  ⟨(C7_tip_and_contribution 3 _).1 2 10 rfl rfl,
   (C7_tip_and_contribution 3 _).2.2 1000⟩

/-- Slot environment whose beacon-block fetch answers HTTP 500 on every
attempt (the lookup itself fails, before any credit is applied). -/
def envLookupFail : SlotEnv :=
  { blockResp := SlotFetch.httpErr 500
    rpcResp := RpcBlockFetch.noResult
    gasResps := gasAlwaysNull }

/-- Claim C1 counterexample: in `envPartialFail` the slot unit credits the
33-coin withdrawal (1 whole coin after stripping) and then fails on the
execution-block fetch; all 5 attempts fail, yet the final consensus total
for `0xaaa` is 5, not 0 — each retry re-applied the credit of the earlier
failed attempt, so the net contribution of a retry-exhausted unit is
neither zero nor free of double counting. -/
theorem C1_counterexample :
    (processSlotRetried defaultConfig trackedFive envPartialFail AggState.zero).2 = false
    ∧ (processSlotOnce defaultConfig trackedFive envPartialFail AggState.zero).1.consA "0xaaa" = 1
    ∧ (processSlotRetried defaultConfig trackedFive envPartialFail AggState.zero).1.consA "0xaaa"
        = 5 := by
  refine ⟨rfl, ?_, ?_⟩
  · simp +decide [processSlotOnce, withdrawalsOf, creditWithdrawal, creditedAmount, bumpS, bumpN,
      AggState.zero, defaultConfig, trackedFive, envPartialFail, msgWithWithdrawal, wdThirtyThree,
      toLowerJS]
    norm_num
  · simp +decide [processSlotRetried, retryStateful, processSlotOnce, withdrawalsOf,
      creditWithdrawal, creditedAmount, bumpS, bumpN, AggState.zero, defaultConfig, trackedFive,
      envPartialFail, msgWithWithdrawal, wdThirtyThree, toLowerJS]
    norm_num

/-- Claim C1 as amended: when the slot's block lookup itself fails on
every attempt (an unexpected HTTP status or a decode failure each time,
before any credit is applied), the retried unit leaves the aggregation
state exactly unchanged — the slot contributes zero to every total — and
reports failure.  (When an attempt fails only after crediting, the source
re-applies those credits on every attempt, as the counterexample shows.) -/
theorem C1_retry_exhaustion_zero_contribution (cfg : Config) (tracked : Nat → Bool)
    (env : SlotEnv) (s : AggState)
    (h : (∃ code, env.blockResp = SlotFetch.httpErr code) ∨ env.blockResp = SlotFetch.decodeErr) :
    processSlotRetried cfg tracked env s = (s, false) := by
  rcases h with ⟨code, h⟩ | h <;>
    simp [processSlotRetried, retryStateful, processSlotOnce, h]

/-- Witness for C1 (amended): a slot whose beacon fetch answers HTTP 500
every time leaves the zero state untouched and fails. -/
theorem C1_retry_exhaustion_zero_contribution_witness :
    processSlotRetried defaultConfig trackedFive envLookupFail AggState.zero
      = (AggState.zero, false) :=
  C1_retry_exhaustion_zero_contribution defaultConfig trackedFive envLookupFail AggState.zero
    (Or.inl ⟨500, rfl⟩)

/-- Claim C9 counterexample: an RPC error object (or missing result) for a
tracked proposer's execution block is logged and swallowed with a normal
return (lines 311-314), and a per-transaction receipt lookup that exhausts
its own retries is caught by the per-transaction handler (lines 327-329) —
in both cases the slot attempt completes with `ok`, so nothing propagates
to the enclosing retry wrapper. -/
theorem C9_counterexample :
    (processSlotOnce defaultConfig trackedFive envRpcErrObj AggState.zero).2 = Except.ok ()
    ∧ (processSlotOnce defaultConfig trackedFive envGasExhaust AggState.zero).2 = Except.ok ()
    ∧ (getGasUsed (gasAlwaysHttp500 "t1")).result
        = Except.error (RetryFailure.exhausted (some (GasErr.http 500))) :=
  ⟨rfl, rfl, rfl⟩

/-- Claim C9 as amended: non-ok HTTP statuses (other than the 404/400
terminal skips) and decode failures on the beacon block, and inner-retry
exhaustion, non-ok HTTP statuses and decode failures on the execution
block, all propagate as errors to the enclosing retry wrapper; but an RPC
error object or missing result for the execution block is swallowed with a
normal return, and a failed per-transaction receipt lookup only zeroes
that transaction's contribution. -/
theorem C9_error_propagation (cfg : Config) (tracked : Nat → Bool) (env : SlotEnv)
    (s : AggState) :
    (∀ code, env.blockResp = SlotFetch.httpErr code →
        (processSlotOnce cfg tracked env s).2 = Except.error (SlotErr.http code))
    ∧ (env.blockResp = SlotFetch.decodeErr →
        (processSlotOnce cfg tracked env s).2 = Except.error SlotErr.decode)
    ∧ (∀ msg payload, env.blockResp = SlotFetch.block msg →
        msg.execution_payload = some payload → tracked msg.proposer_index = true →
          ((env.rpcResp = RpcBlockFetch.netFail →
              (processSlotOnce cfg tracked env s).2 = Except.error SlotErr.rpcNet)
           ∧ (∀ code, env.rpcResp = RpcBlockFetch.httpErr code →
              (processSlotOnce cfg tracked env s).2 = Except.error (SlotErr.rpcHttp code))
           ∧ (env.rpcResp = RpcBlockFetch.decodeErr →
              (processSlotOnce cfg tracked env s).2 = Except.error SlotErr.rpcDecode)
           ∧ (∀ m, env.rpcResp = RpcBlockFetch.rpcError m →
              (processSlotOnce cfg tracked env s).2 = Except.ok ())
           ∧ (env.rpcResp = RpcBlockFetch.noResult →
              (processSlotOnce cfg tracked env s).2 = Except.ok ())))
    ∧ (∀ (e : RetryFailure GasErr) (baseFee : Int) (tx : Tx),
        txDelta (Except.error e) baseFee tx = 0) := by
  refine ⟨?_, ?_, ?_, ?_⟩
  · intro code h; simp [processSlotOnce, h]
  · intro h; simp [processSlotOnce, h]
  · intro msg payload hb hp ht
    refine ⟨?_, ?_, ?_, ?_, ?_⟩ <;>
      first
        | (intro h; simp [processSlotOnce, hb, hp, ht, h])
        | (intro code h; simp [processSlotOnce, hb, hp, ht, h])
  · intro e baseFee tx; simp [txDelta]

/-- Witness for C9 (amended): in `envPartialFail` (tracked proposer,
execution-block fetch answering HTTP 500), the attempt's outcome is the
propagated `rpcHttp 500` error. -/
theorem C9_error_propagation_witness :
    (processSlotOnce defaultConfig trackedFive envPartialFail AggState.zero).2
      = Except.error (SlotErr.rpcHttp 500) :=
  (((C9_error_propagation defaultConfig trackedFive envPartialFail AggState.zero).2.2.1
      msgWithWithdrawal
      { block_number := 7, fee_recipient := "0xbob", withdrawals := some [wdThirtyThree] }
      rfl rfl rfl).2.1) 500 rfl

/-! ## Additivity of slot processing (for order-independence) -/

/-- Two aggregation states with equal component maps are equal. -/
lemma AggState.ext4 (s t : AggState) (h1 : s.consV = t.consV) (h2 : s.execV = t.execV)
    (h3 : s.consA = t.consA) (h4 : s.execA = t.execA) : s = t := by
  cases s; cases t; simp_all

/-- Adding the zero state on the left is the identity. -/
lemma AggState.zero_add (s : AggState) : AggState.zero.add s = s := by
  refine AggState.ext4 _ _ ?_ ?_ ?_ ?_ <;> funext x <;> simp [AggState.add, AggState.zero]

/-- Pointwise addition of states is left-commutative. -/
lemma AggState.add_left_comm (a b c : AggState) : a.add (b.add c) = b.add (a.add c) := by
  refine AggState.ext4 _ _ ?_ ?_ ?_ ?_ <;> funext x <;> simp [AggState.add] <;> ring

/-- Bumping a translated `Nat`-keyed map bumps the base map and keeps the
translation. -/
lemma bumpN_add (f g : Nat → ℚ) (k : Nat) (v : ℚ) :
    bumpN (fun i => f i + g i) k v = fun i => bumpN f k v i + g i := by
  funext i
  by_cases hi : i = k <;> simp [bumpN, hi, add_right_comm]

/-- Bumping a translated `String`-keyed map bumps the base map and keeps
the translation. -/
lemma bumpS_add (f g : String → ℚ) (k : String) (v : ℚ) :
    bumpS (fun a => f a + g a) k v = fun a => bumpS f k v a + g a := by
  funext a
  by_cases ha : a = k <;> simp [bumpS, ha, add_right_comm]

/-- Crediting a withdrawal on a translated state credits the base state
and keeps the translation. -/
lemma creditWithdrawal_add (cfg : Config) (tr : Nat → Bool) (s d : AggState) (wd : Withdrawal) :
    creditWithdrawal cfg tr (s.add d) wd = (creditWithdrawal cfg tr s wd).add d := by
  unfold creditWithdrawal
  cases h : tr wd.validator_index
  · simp
  · simp only [if_pos rfl]
    refine AggState.ext4 _ _ ?_ ?_ ?_ ?_ <;>
      simp [AggState.add, bumpN_add, bumpS_add]

/-- Folding the withdrawal credits over a translated state equals the base
fold plus the translation. -/
lemma foldl_creditWithdrawal_add (cfg : Config) (tr : Nat → Bool) (wds : List Withdrawal) :
    ∀ s d : AggState,
      wds.foldl (creditWithdrawal cfg tr) (s.add d)
        = (wds.foldl (creditWithdrawal cfg tr) s).add d := by
  induction wds with
  | nil => intro s d; rfl
  | cons wd rest ih =>
    intro s d
    simp only [List.foldl_cons, creditWithdrawal_add]
    exact ih (creditWithdrawal cfg tr s wd) d

/-- One slot attempt on a translated state: the state delta and the
outcome are those of the base state, translated — the per-attempt credits
and the control flow do not depend on the running totals. -/
lemma processSlotOnce_add (cfg : Config) (tr : Nat → Bool) (env : SlotEnv) (s d : AggState) :
    processSlotOnce cfg tr env (s.add d)
      = ((processSlotOnce cfg tr env s).1.add d, (processSlotOnce cfg tr env s).2) := by
  rcases env with ⟨blockResp, rpcResp, gasResps⟩
  cases blockResp with
  | notFound => rfl
  | badIndex => rfl
  | httpErr code => rfl
  | decodeErr => rfl
  | block msg =>
    simp only [processSlotOnce, foldl_creditWithdrawal_add]
    cases h : tr msg.proposer_index
    · simp
    · simp only [if_pos rfl]
      cases hp : msg.execution_payload with
      | none => simp
      | some payload =>
        cases rpcResp with
        | netFail => simp
        | httpErr code => simp
        | decodeErr => simp
        | rpcError m => simp
        | noResult => simp
        | ok b =>
          simp only []
          refine Prod.ext ?_ rfl
          refine AggState.ext4 _ _ ?_ ?_ ?_ ?_ <;>
            simp [AggState.add, bumpN_add, bumpS_add]

/-- The stateful retry of an additive attempt is additive. -/
lemma retryStateful_add (fn : AggState → AggState × Except SlotErr Unit)
    (hfn : ∀ s d, fn (s.add d) = ((fn s).1.add d, (fn s).2)) :
    ∀ (n : Nat) (s d : AggState),
      retryStateful fn n (s.add d)
        = ((retryStateful fn n s).1.add d, (retryStateful fn n s).2) := by
  intro n
  induction n with
  | zero => intro s d; rfl
  | succ m ih =>
    intro s d
    simp only [retryStateful, hfn s d]
    cases hr : fn s with
    | mk s1 outcome =>
      cases outcome with
      | ok v => simp [hr]
      | error e => simp [hr, ih s1 d]

/-- The retried slot unit on a translated state produces the base result
plus the translation. -/
lemma processSlotRetried_add (cfg : Config) (tr : Nat → Bool) (env : SlotEnv)
    (s d : AggState) :
    (processSlotRetried cfg tr env (s.add d)).1
      = (processSlotRetried cfg tr env s).1.add d := by
  unfold processSlotRetried
  rw [retryStateful_add (processSlotOnce cfg tr env) (processSlotOnce_add cfg tr env) 5 s d]

/-- Every slot's retried unit adds a fixed, state-independent delta: its
effect on any state is its effect on the zero state, added on top. -/
lemma processSlotRetried_delta (cfg : Config) (tr : Nat → Bool) (env : SlotEnv) (s : AggState) :
    (processSlotRetried cfg tr env s).1
      = (processSlotRetried cfg tr env AggState.zero).1.add s := by
  conv_lhs => rw [← AggState.zero_add s]
  exact processSlotRetried_add cfg tr env AggState.zero s

/-- Two slots' retried units commute on any state. -/
lemma processSlotRetried_comm (cfg : Config) (tr : Nat → Bool) (e1 e2 : SlotEnv)
    (s : AggState) :
    (processSlotRetried cfg tr e2 (processSlotRetried cfg tr e1 s).1).1
      = (processSlotRetried cfg tr e1 (processSlotRetried cfg tr e2 s).1).1 := by
  rw [processSlotRetried_delta cfg tr e2 (processSlotRetried cfg tr e1 s).1,
    processSlotRetried_delta cfg tr e1 s,
    processSlotRetried_delta cfg tr e1 (processSlotRetried cfg tr e2 s).1,
    processSlotRetried_delta cfg tr e2 s]
  exact AggState.add_left_comm _ _ _

/-! ## Exact model of the source's IEEE-754 double arithmetic

The `AggState` model above idealizes the JavaScript `number` totals as
rationals; the source actually accumulates binary64 doubles, whose
addition rounds and is therefore not associative.  The definitions below
model that arithmetic exactly: a finite double is stored as the dyadic
rational it denotes, and every operation rounds its exact result to 53
significant bits, round to nearest, ties to even — the IEEE-754 binary64
rule for the normal range (none of the scanner's quantities approach
overflow or subnormals).  `runScanF` is the slot scan of lines 241-353
over this arithmetic. -/

/-- Bit length of a natural number, with a structural fuel bound far above
any bit length arising in this development. -/
def bitLen : Nat → Nat → Nat
  | 0, _ => 0
  | fuel + 1, n => if n = 0 then 0 else bitLen fuel (n / 2) + 1

/-- Round the positive rational `n / d` (`n, d > 0`) to 53 significant
bits, round to nearest, ties to even: returns the 53-bit significand `m`
and the binary scale `s`, so the rounded value is `m / 2^s` (`s` may be
negative for values at and above `2^53`). -/
def roundSig (n d : Nat) : Nat × Int :=
  let s0 : Int := 53 + (bitLen 4400 d : Int) - (bitLen 4400 n : Int)
  let scaleN := fun (s : Int) => if 0 ≤ s then n * 2 ^ s.toNat else n
  let scaleD := fun (s : Int) => if 0 ≤ s then d else d * 2 ^ (-s).toNat
  let s := if scaleN s0 / scaleD s0 < 2 ^ 53 then s0 else s0 - 1
  let N := scaleN s
  let D := scaleD s
  let m0 := N / D
  let r := N % D
  let m := if 2 * r < D then m0
           else if D < 2 * r then m0 + 1
           else if m0 % 2 = 0 then m0 else m0 + 1
  (m, s)

/-- A finite binary64 value stored exactly as a dyadic rational
`m / 2^s`. -/
abbrev DF : Type := Int × Nat

/-- Turn a rounded significand/scale pair into a `DF` (a negative scale is
folded into the significand; the value is unchanged). -/
def dfOfSig (p : Nat × Int) : DF :=
  if 0 ≤ p.2 then ((p.1 : Int), p.2.toNat) else ((p.1 : Int) * 2 ^ (-p.2).toNat, 0)

/-- Binary64 round-to-nearest-even of the exact rational `n / d` (normal
range; rounding is symmetric under negation). -/
def roundDF (n : Int) (d : Nat) : DF :=
  if n = 0 then ((0 : Int), (0 : Nat))
  else if 0 < n then dfOfSig (roundSig n.toNat d)
  else
    let p := dfOfSig (roundSig (-n).toNat d)
    (-p.1, p.2)

/-- Double addition: the exact sum of the two dyadics, rounded. -/
def dfAdd (x y : DF) : DF :=
  roundDF (x.1 * 2 ^ y.2 + y.1 * 2 ^ x.2) (2 ^ (x.2 + y.2))

/-- Double subtraction (negating a double is exact). -/
def dfSub (x y : DF) : DF := dfAdd x (-y.1, y.2)

/-- Double division by a positive double (the only divisors the source
uses are the positive constants `1e9` and `1e18`): the exact quotient,
rounded. -/
def dfDiv (x y : DF) : DF := roundDF (x.1 * 2 ^ y.2) (y.1.toNat * 2 ^ x.2)

/-- Double comparison `x < y` (comparison of doubles is exact). -/
def dfLtB (x y : DF) : Bool := x.1 * 2 ^ y.2 < y.1 * 2 ^ x.2

/-- The exact rational value of a stored double. -/
def dfVal (x : DF) : ℚ := (x.1 : ℚ) / 2 ^ x.2

/-- The configuration constants as the doubles the source reads from
`config.json` (`1e9` and `32` are exactly representable). -/
structure ConfigF where
  gweiToPls : DF
  maxEffectiveBalance : DF

/-- The example `config.json`, in doubles. -/
def defaultConfigF : ConfigF :=
  { gweiToPls := ((1000000000 : Int), (0 : Nat))
    maxEffectiveBalance := ((32 : Int), (0 : Nat)) }

/-- The aggregation state with the source's actual double totals. -/
structure AggStateF where
  consV : Nat → DF
  execV : Nat → DF
  consA : String → DF
  execA : String → DF

/-- The all-zero double aggregation state. -/
def AggStateF.zero : AggStateF :=
  { consV := fun _ => ((0 : Int), (0 : Nat)), execV := fun _ => ((0 : Int), (0 : Nat))
    consA := fun _ => ((0 : Int), (0 : Nat)), execA := fun _ => ((0 : Int), (0 : Nat)) }

/-- `f[k] := f[k] + v` in double arithmetic. -/
def bumpNF (f : Nat → DF) (k : Nat) (v : DF) : Nat → DF :=
  fun i => if i = k then dfAdd (f i) v else f i

/-- `m[k] = (m[k] || 0) + v` in double arithmetic. -/
def bumpSF (f : String → DF) (k : String) (v : DF) : String → DF :=
  fun a => if a = k then dfAdd (f a) v else f a

/-- Lines 274-277 in double arithmetic: `parseInt` yields a double, the
division by `GWEI_TO_PLS` and the stripping subtraction round, and the
comparison is exact. -/
def creditedAmountF (cfg : ConfigF) (amountGwei : Nat) : DF :=
  let amount := dfDiv (roundDF (amountGwei : Int) 1) cfg.gweiToPls
  if dfLtB cfg.maxEffectiveBalance amount then dfSub amount cfg.maxEffectiveBalance else amount

/-- Lines 271-282, one withdrawal, in double arithmetic. -/
def creditWithdrawalF (cfg : ConfigF) (tracked : Nat → Bool) (s : AggStateF)
    (wd : Withdrawal) : AggStateF :=
  if tracked wd.validator_index then
    { s with consV := bumpNF s.consV wd.validator_index (creditedAmountF cfg wd.amount)
             consA := bumpSF s.consA (toLowerJS wd.address) (creditedAmountF cfg wd.amount) }
  else s

/-- One attempt of the per-slot closure (lines 248-340) with the source's
double arithmetic for the `number` quantities; the `BigInt` tip arithmetic
stays exact (it is arbitrary precision in the source too), and
`Number(prioritySum)` and the division by `1e18` round. -/
def processSlotOnceF (cfg : ConfigF) (tracked : Nat → Bool) (env : SlotEnv)
    (s : AggStateF) : AggStateF × Except SlotErr Unit :=
  match env.blockResp with
  | SlotFetch.notFound => (s, Except.ok ())
  | SlotFetch.badIndex => (s, Except.ok ())
  | SlotFetch.httpErr code => (s, Except.error (SlotErr.http code))
  | SlotFetch.decodeErr => (s, Except.error SlotErr.decode)
  | SlotFetch.block msg =>
    let s1 := (withdrawalsOf msg).foldl (creditWithdrawalF cfg tracked) s
    if tracked msg.proposer_index then
      match msg.execution_payload with
      | none => (s1, Except.ok ())
      | some payload =>
        match env.rpcResp with
        | RpcBlockFetch.netFail => (s1, Except.error SlotErr.rpcNet)
        | RpcBlockFetch.httpErr code => (s1, Except.error (SlotErr.rpcHttp code))
        | RpcBlockFetch.decodeErr => (s1, Except.error SlotErr.rpcDecode)
        | RpcBlockFetch.rpcError _ => (s1, Except.ok ())
        | RpcBlockFetch.noResult => (s1, Except.ok ())
        | RpcBlockFetch.ok b =>
          let baseFee : Int := (b.baseFeePerGas.getD 0 : Nat)
          let executionAmount : DF :=
            dfDiv (roundDF (prioritySum env.gasResps baseFee b.transactions) 1)
              ((1000000000000000000 : Int), (0 : Nat))
          ({ s1 with execV := bumpNF s1.execV msg.proposer_index executionAmount
                     execA := bumpSF s1.execA (toLowerJS payload.fee_recipient) executionAmount },
           Except.ok ())
    else (s1, Except.ok ())

/-- The source `retry` over a closure mutating the double state. -/
def retryStatefulF (fn : AggStateF → AggStateF × Except SlotErr Unit) :
    Nat → AggStateF → AggStateF × Bool
  | 0, s => (s, false)
  | n + 1, s =>
    match fn s with
    | (s1, Except.ok _) => (s1, true)
    | (s1, Except.error _) => retryStatefulF fn n s1

/-- One slot's unit under `retry(fn, 4, ...)`, double arithmetic. -/
def processSlotRetriedF (cfg : ConfigF) (tracked : Nat → Bool) (env : SlotEnv)
    (s : AggStateF) : AggStateF × Bool :=
  retryStatefulF (processSlotOnceF cfg tracked env) 5 s

/-- The slot scan (lines 241-353) with the source's double accumulation. -/
def runScanF (cfg : ConfigF) (tracked : Nat → Bool) (envs : List SlotEnv)
    (s : AggStateF) : AggStateF :=
  envs.foldl (fun st e => (processSlotRetriedF cfg tracked e st).1) s

/-- A withdrawal of `1e8` gwei (0.1 coin) to `0xaaa` for validator 5. -/
def wdTenth : Withdrawal := { validator_index := 5, amount := 100000000, address := "0xaaa" }

/-- A withdrawal of `2e8` gwei (0.2 coin) to `0xaaa` for validator 5. -/
def wdFifth : Withdrawal := { validator_index := 5, amount := 200000000, address := "0xaaa" }

/-- A withdrawal of `3e8` gwei (0.3 coin) to `0xaaa` for validator 5. -/
def wdThreeTenths : Withdrawal :=
  { validator_index := 5, amount := 300000000, address := "0xaaa" }

/-- A slot whose block carries one withdrawal for tracked validator 5 and
an untracked proposer (no execution-layer work). -/
def envOfWd (wd : Withdrawal) : SlotEnv :=
  { blockResp := SlotFetch.block
      { proposer_index := 9
        execution_payload :=
          some { block_number := 1, fee_recipient := "0xbob", withdrawals := some [wd] } }
    rpcResp := RpcBlockFetch.noResult
    gasResps := gasAlwaysNull }

set_option maxRecDepth 40000 in
/-- Claim C10 counterexample: under the source's double accumulation
(modelled exactly as binary64 round-to-nearest-even), three withdrawals
of 0.1, 0.2 and 0.3 coins to the same address leave the final total
`0.6000000000000001` (= `5404319552844596 / 2^53`) in one order and `0.6`
(= `5404319552844595 / 2^53`) in the reverse order: processing the same
fixed set of slots in reverse order does not yield identical final
totals, so the claim as stated is false of the source. -/
theorem C10_counterexample :
    [envOfWd wdThreeTenths, envOfWd wdFifth, envOfWd wdTenth]
        = List.reverse [envOfWd wdTenth, envOfWd wdFifth, envOfWd wdThreeTenths]
    ∧ dfVal ((runScanF defaultConfigF trackedFive
          [envOfWd wdTenth, envOfWd wdFifth, envOfWd wdThreeTenths] AggStateF.zero).consA
            "0xaaa")
      ≠ dfVal ((runScanF defaultConfigF trackedFive
          [envOfWd wdThreeTenths, envOfWd wdFifth, envOfWd wdTenth] AggStateF.zero).consA
            "0xaaa") := by
  refine ⟨rfl, ?_⟩
  have h1 : (runScanF defaultConfigF trackedFive
      [envOfWd wdTenth, envOfWd wdFifth, envOfWd wdThreeTenths] AggStateF.zero).consA "0xaaa"
      = ((5404319552844596 : Int), (53 : Nat)) := by decide
  have h2 : (runScanF defaultConfigF trackedFive
      [envOfWd wdThreeTenths, envOfWd wdFifth, envOfWd wdTenth] AggStateF.zero).consA "0xaaa"
      = ((5404319552844595 : Int), (53 : Nat)) := by decide
  rw [h1, h2]
  simp only [dfVal]
  norm_num

/-- Claim C10 as amended: processing a partition into batches sequentially
equals processing the concatenation even under the source's double
accumulation (batching does not reorder the additions), and in exact
arithmetic — where each slot contributes a fixed rational delta — any
processing order yields identical final totals in all four maps; under the
source's double accumulation, however, reordering slots can change the
final totals by rounding (see the counterexample), so the identical-totals
property under permutation holds only for the exact counterparts of the
totals. -/
theorem C10_order_independence_amended (cfg : Config) (cfgF : ConfigF) (tracked : Nat → Bool) :
    (∀ (l1 l2 : List SlotEnv) (s : AggStateF),
        runScanF cfgF tracked (l1 ++ l2) s
          = runScanF cfgF tracked l2 (runScanF cfgF tracked l1 s))
    ∧ (∀ (l1 l2 : List SlotEnv) (s : AggState), l1.Perm l2 →
        runScan cfg tracked l1 s = runScan cfg tracked l2 s)
    ∧ (∀ (l1 l2 : List SlotEnv) (s : AggState),
        runScan cfg tracked (l1 ++ l2) s = runScan cfg tracked l2 (runScan cfg tracked l1 s)) := by
  refine ⟨?_, ?_, ?_⟩
  · intro l1 l2 s
    simp [runScanF, List.foldl_append]
  · intro l1 l2 s hp
    exact hp.foldl_eq' (fun x _ y _ z => processSlotRetried_comm cfg tracked x y z) s
  · intro l1 l2 s
    simp [runScan, List.foldl_append]

/-- Witness for C10 (amended): splitting two concrete slots into two
sequential batches leaves the double-arithmetic scan unchanged, and
swapping two concrete slots leaves the exact-arithmetic scan unchanged. -/
theorem C10_order_independence_amended_witness :
    runScanF defaultConfigF trackedFive ([envOfWd wdTenth] ++ [envOfWd wdFifth]) AggStateF.zero
      = runScanF defaultConfigF trackedFive [envOfWd wdFifth]
          (runScanF defaultConfigF trackedFive [envOfWd wdTenth] AggStateF.zero)
    ∧ runScan defaultConfig trackedFive [envSkip404, envNegTip] AggState.zero
      = runScan defaultConfig trackedFive [envNegTip, envSkip404] AggState.zero :=
  ⟨(C10_order_independence_amended defaultConfig defaultConfigF trackedFive).1
      [envOfWd wdTenth] [envOfWd wdFifth] AggStateF.zero,
   (C10_order_independence_amended defaultConfig defaultConfigF trackedFive).2.1 _ _
      AggState.zero (List.Perm.swap envNegTip envSkip404 [])⟩

/-! ## Monotonicity of the totals (for the non-negativity claim) -/

/-- Pointwise order on aggregation states: every entry of every total map
of `s` is at most the corresponding entry of `t`. -/
def AggState.le (s t : AggState) : Prop :=
  (∀ i, s.consV i ≤ t.consV i) ∧ (∀ i, s.execV i ≤ t.execV i)
    ∧ (∀ a, s.consA a ≤ t.consA a) ∧ (∀ a, s.execA a ≤ t.execA a)

/-- The pointwise order is reflexive. -/
lemma AggState.le_refl (s : AggState) : AggState.le s s :=
  ⟨fun _ => le_rfl, fun _ => le_rfl, fun _ => le_rfl, fun _ => le_rfl⟩

/-- The pointwise order is transitive. -/
lemma AggState.le_trans {s t u : AggState} (h1 : AggState.le s t) (h2 : AggState.le t u) :
    AggState.le s u :=
  ⟨fun i => (h1.1 i).trans (h2.1 i), fun i => (h1.2.1 i).trans (h2.2.1 i),
   fun a => (h1.2.2.1 a).trans (h2.2.2.1 a), fun a => (h1.2.2.2 a).trans (h2.2.2.2 a)⟩

/-- Bumping by a non-negative amount never decreases an entry. -/
lemma bumpN_le (f : Nat → ℚ) (k : Nat) (v : ℚ) (hv : 0 ≤ v) (i : Nat) :
    f i ≤ bumpN f k v i := by
  by_cases hi : i = k <;> simp [bumpN, hi, hv]

/-- Bumping by a non-negative amount never decreases an entry. -/
lemma bumpS_le (f : String → ℚ) (k : String) (v : ℚ) (hv : 0 ≤ v) (a : String) :
    f a ≤ bumpS f k v a := by
  by_cases ha : a = k <;> simp [bumpS, ha, hv]

/-- With a positive gwei-to-coin ratio, the credited withdrawal amount of
lines 274-277 is non-negative (stripping can reach 0 but not below). -/
lemma creditedAmount_nonneg (cfg : Config) (hg : 0 < cfg.gweiToPls) (amountGwei : Nat) :
    0 ≤ creditedAmount cfg amountGwei := by
  have hq : 0 ≤ (amountGwei : ℚ) / cfg.gweiToPls :=
    div_nonneg (Nat.cast_nonneg amountGwei) hg.le
  unfold creditedAmount
  simp only []
  split
  · rename_i hgt
    linarith
  · exact hq

/-- Crediting one withdrawal never decreases any entry. -/
lemma creditWithdrawal_le (cfg : Config) (hg : 0 < cfg.gweiToPls) (tr : Nat → Bool)
    (s : AggState) (wd : Withdrawal) :
    AggState.le s (creditWithdrawal cfg tr s wd) := by
  unfold creditWithdrawal
  cases h : tr wd.validator_index
  · simp only [Bool.false_eq_true, if_false]
    exact AggState.le_refl s
  · simp only [if_pos rfl]
    exact ⟨bumpN_le _ _ _ (creditedAmount_nonneg cfg hg wd.amount), fun _ => le_rfl,
      bumpS_le _ _ _ (creditedAmount_nonneg cfg hg wd.amount), fun _ => le_rfl⟩

/-- Folding the withdrawal credits never decreases any entry. -/
lemma foldl_creditWithdrawal_le (cfg : Config) (hg : 0 < cfg.gweiToPls) (tr : Nat → Bool)
    (wds : List Withdrawal) :
    ∀ s : AggState, AggState.le s (wds.foldl (creditWithdrawal cfg tr) s) := by
  induction wds with
  | nil => intro s; exact AggState.le_refl s
  | cons wd rest ih =>
    intro s
    exact AggState.le_trans (creditWithdrawal_le cfg hg tr s wd)
      (ih (creditWithdrawal cfg tr s wd))

/-- All effective tips of the execution block delivered by the
environment are non-negative (holds for fee-valid transactions, whose fee
cap or legacy gas price is at least the base fee). -/
def tipsNonneg (env : SlotEnv) : Prop :=
  match env.rpcResp with
  | RpcBlockFetch.ok b =>
      ∀ tx ∈ b.transactions, 0 ≤ effectiveTip ((b.baseFeePerGas.getD 0 : Nat) : Int) tx
  | _ => True

/-- With non-negative tips, the transaction-loop total is non-negative. -/
lemma prioritySum_nonneg (gasResps : String → Nat → ReceiptResp) (baseFee : Int)
    (txs : List Tx) (htips : ∀ tx ∈ txs, 0 ≤ effectiveTip baseFee tx) :
    0 ≤ prioritySum gasResps baseFee txs := by
  unfold prioritySum
  have key : ∀ (l : List Tx) (acc : Int), (∀ tx ∈ l, 0 ≤ effectiveTip baseFee tx) → 0 ≤ acc →
      0 ≤ l.foldl
        (fun acc tx => acc + txDelta (getGasUsed (gasResps tx.hash)).result baseFee tx) acc := by
    intro l
    induction l with
    | nil => intro acc _ hacc; simpa using hacc
    | cons tx rest ih =>
      intro acc hl hacc
      simp only [List.foldl_cons]
      refine ih _ (fun t ht => hl t (List.mem_cons_of_mem tx ht)) ?_
      have htip : 0 ≤ effectiveTip baseFee tx := hl tx (List.mem_cons_self tx rest)
      have hdelta : 0 ≤ txDelta (getGasUsed (gasResps tx.hash)).result baseFee tx := by
        unfold txDelta
        cases (getGasUsed (gasResps tx.hash)).result with
        | ok g => exact mul_nonneg htip (Int.ofNat_nonneg g)
        | error e => exact le_rfl
      linarith
  exact key txs 0 htips le_rfl

/-- One slot attempt never decreases any entry, given a positive
conversion ratio and non-negative tips. -/
lemma processSlotOnce_le (cfg : Config) (hg : 0 < cfg.gweiToPls) (tr : Nat → Bool)
    (env : SlotEnv) (htips : tipsNonneg env) (s : AggState) :
    AggState.le s (processSlotOnce cfg tr env s).1 := by
  rcases env with ⟨blockResp, rpcResp, gasResps⟩
  cases blockResp with
  | notFound => exact AggState.le_refl s
  | badIndex => exact AggState.le_refl s
  | httpErr code => exact AggState.le_refl s
  | decodeErr => exact AggState.le_refl s
  | block msg =>
    have hfold := foldl_creditWithdrawal_le cfg hg tr (withdrawalsOf msg) s
    simp only [processSlotOnce]
    cases h : tr msg.proposer_index
    · simpa using hfold
    · simp only [if_pos rfl]
      cases hp : msg.execution_payload with
      | none => simpa using hfold
      | some payload =>
        cases rpcResp with
        | netFail => simpa using hfold
        | httpErr code => simpa using hfold
        | decodeErr => simpa using hfold
        | rpcError m => simpa using hfold
        | noResult => simpa using hfold
        | ok b =>
          have hsum : 0 ≤ prioritySum gasResps ((b.baseFeePerGas.getD 0 : Nat) : Int)
              b.transactions :=
            prioritySum_nonneg gasResps _ b.transactions (by simpa [tipsNonneg] using htips)
          have hamt : (0 : ℚ) ≤
              (prioritySum gasResps ((b.baseFeePerGas.getD 0 : Nat) : Int) b.transactions : ℚ)
                / (1000000000000000000 : ℚ) := by
            apply div_nonneg _ (by norm_num)
            exact_mod_cast hsum
          refine AggState.le_trans hfold ?_
          exact ⟨fun _ => le_rfl, bumpN_le _ _ _ hamt,
            fun _ => le_rfl, bumpS_le _ _ _ hamt⟩

/-- The retried slot unit never decreases any entry. -/
lemma processSlotRetried_le (cfg : Config) (hg : 0 < cfg.gweiToPls) (tr : Nat → Bool)
    (env : SlotEnv) (htips : tipsNonneg env) (s : AggState) :
    AggState.le s (processSlotRetried cfg tr env s).1 := by
  unfold processSlotRetried
  have key : ∀ (n : Nat) (t : AggState),
      AggState.le t (retryStateful (processSlotOnce cfg tr env) n t).1 := by
    intro n
    induction n with
    | zero => intro t; exact AggState.le_refl t
    | succ m ih =>
      intro t
      simp only [retryStateful]
      cases hr : processSlotOnce cfg tr env t with
      | mk t1 outcome =>
        have h1 : AggState.le t t1 := by
          have := processSlotOnce_le cfg hg tr env htips t
          rwa [hr] at this
        cases outcome with
        | ok v => simpa using h1
        | error e => exact AggState.le_trans h1 (by simpa using ih t1)
  exact key 5 s

/-- Claim C8 counterexample: with a transaction whose fee cap (1) is below
the base fee (3), the code's tip is `min(5, 1 - 3) = -2`, the slot's
execution credit is `-2000 / 1e18 < 0`, and the fee recipient's total
strictly decreases from 0 — so not every credit is non-negative for every
input block and transaction data. -/
theorem C8_counterexample :
    (processSlotOnce defaultConfig trackedFive envNegTip AggState.zero).1.execA "0xbob" < 0
    ∧ AggState.zero.execA "0xbob" = 0 := by
  constructor
  · simp +decide [processSlotOnce, withdrawalsOf, prioritySum, txDelta, getGasUsed, retry,
      retryGo, getGasUsedOnce, effectiveTip, bumpS, bumpN, AggState.zero, defaultConfig,
      trackedFive, envNegTip, txUnderpriced, msgProposerOnly, toLowerJS]
    norm_num
  · rfl

/-- Claim C8 as amended: with a positive gwei-to-coin ratio every
individual consensus credit is non-negative, and provided every
transaction's effective tip is non-negative (which holds for fee-valid
transactions, whose fee cap is at least the base fee), every entry of the
consensus and execution mappings and every validator record total is
non-decreasing over the whole scan. -/
theorem C8_totals_nondecreasing (cfg : Config) (tracked : Nat → Bool)
    (envs : List SlotEnv) (s : AggState) (hg : 0 < cfg.gweiToPls)
    (htips : ∀ env ∈ envs, tipsNonneg env) :
    (∀ amountGwei : Nat, 0 ≤ creditedAmount cfg amountGwei)
    ∧ AggState.le s (runScan cfg tracked envs s) := by
  refine ⟨creditedAmount_nonneg cfg hg, ?_⟩
  unfold runScan
  induction envs generalizing s with
  | nil => exact AggState.le_refl s
  | cons env rest ih =>
    simp only [List.foldl_cons]
    refine AggState.le_trans
      (processSlotRetried_le cfg hg tracked env (htips env (List.mem_cons_self env rest)) s) ?_
    exact ih _ (fun e he => htips e (List.mem_cons_of_mem env he))

/-- Witness for C8 (amended): scanning the fee-valid environments
`[envSkip404, envPartialFail]` from the zero state only moves totals
upward. -/
theorem C8_totals_nondecreasing_witness :
    (∀ amountGwei : Nat, 0 ≤ creditedAmount defaultConfig amountGwei)
    ∧ AggState.le AggState.zero
        (runScan defaultConfig trackedFive [envSkip404, envPartialFail] AggState.zero) :=
  C8_totals_nondecreasing defaultConfig trackedFive [envSkip404, envPartialFail] AggState.zero
    (by simp [defaultConfig])
    (by simp [tipsNonneg, envSkip404, envPartialFail])
